import Mathlib

/-!
# csi-lvm: the controller and provisioner entry points

A shallow embedding of `cmd/controller/main.go` and `cmd/provisioner/main.go`.

* Go `string` is `String`; a Go `error` is its message, and a returned
  `error` value is `Option String` (`none` is `nil`).
* A call that returns `(value, error)` is `Except String value`.
* The outcomes of the three cluster calls are given by a `Cluster`, and the
  way the two calls into the provision-controller library end (return, panic,
  no return) by a `ControllerLib`; the shutdown registration, the
  construction of the provisioner, the two library calls and the log lines
  are recorded, in order, in a list of `Event`s.
* A panic and `log.Fatalf` end the process: `main` returns how it ends.
-/

namespace Controller

/-! ## Package-level variables (`cmd/controller/main.go`, lines 18-36) -/

def flagProvisionerName : String := "provisioner-name"
def envProvisionerName : String := "PROVISIONER_NAME"
def defaultProvisionerName : String := "metal-stack.io/csi-lvm"
def flagNamespace : String := "namespace"
def envNamespace : String := "CSI_LVM_PROVISIONER_NAMESPACE"
def defaultNamespace : String := "csi-lvm"
def flagProvisionerImage : String := "provisioner-image"
def envProvisionerImage : String := "CSI_LVM_PROVISIONER_IMAGE"
def defaultProvisionerImage : String := "metalstack/csi-lvm-provisioner"
def flagDevicePattern : String := "device-pattern"
def envDevicePattern : String := "CSI_LVM_DEVICE_PATTERN"
def flagDefaultLVMType : String := "default-lvm-type"
def envDefaultLVMType : String := "CSI_LVM_DEFAULT_LVM_TYPE"
def flagMountPoint : String := "mountpoint"
def envMountPoint : String := "CSI_LVM_MOUNTPOINT"
def flagProvisionerPodPullPolicy : String := "pull-policy"
def envProvisionerPodPullPolicy : String := "CSI_LVM_PULL_POLICY"

/-- Modelled from the spec: the constant `mirrorType` is used by `startCmd`
but declared in another file of the package.  The spec names the three
layouts `linear`, `striped`, `mirror`. -/
def mirrorType : String := "mirror"

/-- Modelled from the spec: the constant `pullAlways` is used by `startCmd`
but declared in another file of the package.  The spec names the two pull
policies `Always`, `IfNotPresent`. -/
def pullAlways : String := "Always"

/-! ## The command-line library, as far as `startCmd` and `startDaemon` use it -/

/-- The fields of `cli.StringFlag` set by `startCmd`.  A field left out of a
Go composite literal has the zero value, the empty string. -/
structure StringFlag where
  Name : String
  Usage : String
  EnvVars : List String
  Value : String := ""

/-- The value the library binds to a string flag: the one given on the
command line, else the value of the first of its environment variables that
is set, else the declared `Value`. -/
def StringFlag.resolve (f : StringFlag) (args env : String → Option String) : String :=
  match args f.Name with
  | some v => v
  | none =>
    match f.EnvVars.findSome? env with
    | some v => v
    | none => f.Value

/-- A `cli.Context`, seen through its method `String`. -/
structure Context where
  String : String → String

/-- The context the library hands to a command's action: `c.String name` is
the resolved value of the flag called `name`, and the empty string when the
command has no such flag. -/
def newContext (flags : List StringFlag) (args env : String → Option String) : Context :=
  ⟨fun name =>
    match flags.find? (fun f => f.Name == name) with
    | some f => f.resolve args env
    | none => ""⟩

/-- The `Flags` of the command returned by `startCmd` (lines 59-101). -/
def startCmdFlags : List StringFlag :=
  [ { Name := flagProvisionerName
      Usage := "Required. Specify Provisioner name."
      EnvVars := [envProvisionerName]
      Value := defaultProvisionerName },
    { Name := flagNamespace
      Usage := "Required. The namespace that Provisioner is running in"
      EnvVars := [envNamespace]
      Value := defaultNamespace },
    { Name := flagProvisionerImage
      Usage := "Required. The provisioner image used for create/delete lvm volumes on the host"
      EnvVars := [envProvisionerImage]
      Value := defaultProvisionerImage },
    { Name := flagDevicePattern
      Usage := "Required. The pattern of the disk devices on the node to use"
      EnvVars := [envDevicePattern] },
    { Name := flagDefaultLVMType
      Usage := "Optional. the default lvm type to use, must be one of linear|striped|mirror"
      EnvVars := [envDefaultLVMType]
      Value := mirrorType },
    { Name := flagMountPoint
      Usage := "Optional. the mountpoint on the node where the volumes get mounted"
      EnvVars := [envMountPoint]
      Value := "/tmp/csi-lvm" },
    { Name := flagProvisionerPodPullPolicy
      Usage := "Optional. the pull policy for the provisioner pod, can be Always|IfNotPresent"
      EnvVars := [envProvisionerPodPullPolicy]
      Value := pullAlways } ]

/-- The context in which the action of the `start` command runs. -/
def startContext (args env : String → Option String) : Context :=
  newContext startCmdFlags args env

/-! ## The cluster, the controller library and the outcome of `startDaemon` -/

/-- The part of `version.Info` that `startDaemon` reads. -/
structure VersionInfo where
  GitVersion : String
  deriving DecidableEq, Repr

/-- The three cluster calls of `startDaemon`, each with its outcome:
`rest.InClusterConfig()`, `clientset.NewForConfig(config)` and
`kubeClient.Discovery().ServerVersion()`. -/
structure Cluster (Config Client : Type) where
  InClusterConfig : Except String Config
  NewForConfig : Config → Except String Client
  ServerVersion : Client → Except String VersionInfo

/-- How a call into the provision-controller library ends: it returns a
value, it panics with a value (given by its message), or it does not return
(it blocks for good or ends the process). -/
inductive Call (α : Type) where
  | returns (a : α)
  | panics (value : String)
  | never
  deriving DecidableEq, Repr

/-- The two calls of `startDaemon` into the provision-controller library,
each with the way it ends: `pvController.NewProvisionController(client,
provisionerName, provisioner, kubeVersion)` and `pc.Run(stopCh)`. -/
structure ControllerLib (Client Prov PC : Type) where
  NewProvisionController : Client → String → Prov → String → Call PC
  Run : PC → Call Unit

/-- How a call of `startDaemon` ends: it returns an error value (`none` is
`nil`), a panic of a library call goes through it, or it does not return
because a library call does not. -/
inductive Outcome where
  | returned (err : Option String)
  | panicked (value : String)
  | never
  deriving DecidableEq, Repr

/-- What `startDaemon` does to the outside, in order; a call is recorded when
it is made, with its arguments. -/
inductive Event (Client Prov PC : Type) where
  | registerShutdownChannel
  | NewLVMProvisioner (kubeClient : Client)
      (ns mountPoint devicePattern provisionerImage defaultLVMType pullPolicy : String)
  | NewProvisionController (kubeClient : Client) (provisionerName : String)
      (provisioner : Prov) (kubeVersion : String)
  | Info (msg : String)
  | Run (pc : PC)
  deriving DecidableEq, Repr

/-- The event is a call of `NewLVMProvisioner`. -/
def Event.isNewLVMProvisioner {Client Prov PC : Type} : Event Client Prov PC → Bool
  | .NewLVMProvisioner .. => true
  | _ => false

/-- The event is a call of the provision controller's `Run`. -/
def Event.isRun {Client Prov PC : Type} : Event Client Prov PC → Bool
  | .Run _ => true
  | _ => false

/-- Message of `errors.Wrap(err, message)`. -/
def errorsWrap (err message : String) : String :=
  message ++ ": " ++ err

/-- Message of `fmt.Errorf("invalid empty flag %v", flag)`. -/
def invalidEmptyFlag (flag : String) : String :=
  "invalid empty flag " ++ flag

/-- `startDaemon` (lines 112-173).  `NewLVMProvisioner` is a function of the
package declared in another file and is taken as a parameter; `lib` says how
the two calls into the provision-controller library end.  The result is the
list of events in the order they happen and the way the call ends.  The
statements after `pc.Run(stopCh)` run only when that call returns. -/
def startDaemon {Config Client Prov PC : Type} (cluster : Cluster Config Client)
    (lib : ControllerLib Client Prov PC)
    (NewLVMProvisioner : Client → String → String → String → String → String → String → Prov)
    (c : Context) : List (Event Client Prov PC) × Outcome :=
  let t : List (Event Client Prov PC) := [.registerShutdownChannel]
  match cluster.InClusterConfig with
  | .error err => (t, .returned (some (errorsWrap err "unable to get client config")))
  | .ok config =>
  match cluster.NewForConfig config with
  | .error err => (t, .returned (some (errorsWrap err "unable to get k8s client")))
  | .ok kubeClient =>
  match cluster.ServerVersion kubeClient with
  | .error err =>
    (t, .returned (some (errorsWrap err
      "Cannot start Provisioner: failed to get Kubernetes server version")))
  | .ok serverVersion =>
  let provisionerName := c.String flagProvisionerName
  if provisionerName = "" then (t, .returned (some (invalidEmptyFlag flagProvisionerName))) else
  let ns := c.String flagNamespace
  if ns = "" then (t, .returned (some (invalidEmptyFlag flagNamespace))) else
  let provisionerImage := c.String flagProvisionerImage
  if provisionerImage = "" then
    (t, .returned (some (invalidEmptyFlag flagProvisionerImage))) else
  let devicePattern := c.String flagDevicePattern
  if devicePattern = "" then (t, .returned (some (invalidEmptyFlag flagDevicePattern))) else
  let defaultLVMType := c.String flagDefaultLVMType
  if defaultLVMType = "" then (t, .returned (some (invalidEmptyFlag flagDefaultLVMType))) else
  let mountPoint := c.String flagMountPoint
  if mountPoint = "" then (t, .returned (some (invalidEmptyFlag flagMountPoint))) else
  let pullPolicy := c.String flagProvisionerPodPullPolicy
  if pullPolicy = "" then
    (t, .returned (some (invalidEmptyFlag flagProvisionerPodPullPolicy))) else
  let provisioner :=
    NewLVMProvisioner kubeClient ns mountPoint devicePattern provisionerImage defaultLVMType
      pullPolicy
  let t1 : List (Event Client Prov PC) :=
    t ++ [.NewLVMProvisioner kubeClient ns mountPoint devicePattern provisionerImage
            defaultLVMType pullPolicy,
          .NewProvisionController kubeClient provisionerName provisioner
            serverVersion.GitVersion]
  match lib.NewProvisionController kubeClient provisionerName provisioner
      serverVersion.GitVersion with
  | .panics value => (t1, .panicked value)
  | .never => (t1, .never)
  | .returns pc =>
  let t2 : List (Event Client Prov PC) := t1 ++ [.Info "Provisioner started", .Run pc]
  match lib.Run pc with
  | .panics value => (t2, .panicked value)
  | .never => (t2, .never)
  | .returns () => (t2 ++ [.Info "Provisioner stopped"], .returned none)

/-! ## Vocabulary of the statements about `startDaemon` -/

/-- The seven configuration values, in the order `startDaemon` reads them. -/
def requiredFlags : List String :=
  [flagProvisionerName, flagNamespace, flagProvisionerImage, flagDevicePattern,
   flagDefaultLVMType, flagMountPoint, flagProvisionerPodPullPolicy]

/-- The first of the seven configuration values, in that order, that is the
empty string. -/
def firstEmpty (c : Context) : Option String :=
  requiredFlags.find? (fun f => c.String f == "")

/-- The cluster-client set-up succeeds: the in-cluster config is obtained,
the client `kubeClient` is built from it and the server reports
`serverVersion`. -/
def SetUpSucceeds {Config Client : Type} (cluster : Cluster Config Client)
    (kubeClient : Client) (serverVersion : VersionInfo) : Prop :=
  ∃ config, cluster.InClusterConfig = .ok config ∧
    cluster.NewForConfig config = .ok kubeClient ∧
    cluster.ServerVersion kubeClient = .ok serverVersion

/-- The outcome of the three set-up steps at the head of `startDaemon`
(lines 116-129): the client and the server version, or the wrapped error of
the first step that fails. -/
def Cluster.setUp {Config Client : Type} (cluster : Cluster Config Client) :
    Except String (Client × VersionInfo) :=
  match cluster.InClusterConfig with
  | .error err => .error (errorsWrap err "unable to get client config")
  | .ok config =>
    match cluster.NewForConfig config with
    | .error err => .error (errorsWrap err "unable to get k8s client")
    | .ok kubeClient =>
      match cluster.ServerVersion kubeClient with
      | .error err =>
        .error (errorsWrap err
          "Cannot start Provisioner: failed to get Kubernetes server version")
      | .ok serverVersion => .ok (kubeClient, serverVersion)

/-- The provisioner built from the configuration values of `c`, each passed
as it is read, in the argument order of line 161. -/
def provisionerOf {Client Prov : Type}
    (NewLVMProvisioner : Client → String → String → String → String → String → String → Prov)
    (kubeClient : Client) (c : Context) : Prov :=
  NewLVMProvisioner kubeClient (c.String flagNamespace) (c.String flagMountPoint)
    (c.String flagDevicePattern) (c.String flagProvisionerImage)
    (c.String flagDefaultLVMType) (c.String flagProvisionerPodPullPolicy)

/-- The events of a start up to the call of `NewProvisionController`: the
provisioner is built from the six values in the order namespace, mountpoint,
device-pattern, provisioner-image, default-lvm-type, pull-policy, and the
controller's constructor is called with the provisioner name, that
provisioner and the server's `GitVersion`. -/
def constructing {Client Prov PC : Type}
    (NewLVMProvisioner : Client → String → String → String → String → String → String → Prov)
    (kubeClient : Client) (serverVersion : VersionInfo) (c : Context) :
    List (Event Client Prov PC) :=
  [.registerShutdownChannel,
   .NewLVMProvisioner kubeClient (c.String flagNamespace) (c.String flagMountPoint)
     (c.String flagDevicePattern) (c.String flagProvisionerImage)
     (c.String flagDefaultLVMType) (c.String flagProvisionerPodPullPolicy),
   .NewProvisionController kubeClient (c.String flagProvisionerName)
     (provisionerOf NewLVMProvisioner kubeClient c) serverVersion.GitVersion]

/-- What `startDaemon` does once the seven checks have passed (lines
161-172): the events and the way the call ends, by the way the two library
calls end. -/
def afterChecks {Client Prov PC : Type} (lib : ControllerLib Client Prov PC)
    (NewLVMProvisioner : Client → String → String → String → String → String → String → Prov)
    (kubeClient : Client) (serverVersion : VersionInfo) (c : Context) :
    List (Event Client Prov PC) × Outcome :=
  match lib.NewProvisionController kubeClient (c.String flagProvisionerName)
      (provisionerOf NewLVMProvisioner kubeClient c) serverVersion.GitVersion with
  | .panics value => (constructing NewLVMProvisioner kubeClient serverVersion c, .panicked value)
  | .never => (constructing NewLVMProvisioner kubeClient serverVersion c, .never)
  | .returns pc =>
    match lib.Run pc with
    | .panics value =>
      (constructing NewLVMProvisioner kubeClient serverVersion c ++
        [.Info "Provisioner started", .Run pc], .panicked value)
    | .never =>
      (constructing NewLVMProvisioner kubeClient serverVersion c ++
        [.Info "Provisioner started", .Run pc], .never)
    | .returns () =>
      (constructing NewLVMProvisioner kubeClient serverVersion c ++
        [.Info "Provisioner started", .Run pc, .Info "Provisioner stopped"], .returned none)

/-- A context given by its seven configuration values, in the order of
`requiredFlags`; every other name reads as the empty string. -/
def contextOf (provisionerName ns provisionerImage devicePattern defaultLVMType mountPoint
    pullPolicy : String) : Context :=
  ⟨fun name =>
    if name = flagProvisionerName then provisionerName
    else if name = flagNamespace then ns
    else if name = flagProvisionerImage then provisionerImage
    else if name = flagDevicePattern then devicePattern
    else if name = flagDefaultLVMType then defaultLVMType
    else if name = flagMountPoint then mountPoint
    else if name = flagProvisionerPodPullPolicy then pullPolicy
    else ""⟩

/-- A cluster whose set-up succeeds, with client `7` and server version
`v1.17.0`. -/
def goodCluster : Cluster Unit Nat :=
  ⟨.ok (), fun _ => .ok 7, fun _ => .ok ⟨"v1.17.0"⟩⟩

/-- A cluster outside of which the controller runs: no in-cluster config. -/
def noConfigCluster : Cluster Unit Nat :=
  ⟨.error "unable to load in-cluster configuration", fun _ => .ok 7,
   fun _ => .ok ⟨"v1.17.0"⟩⟩

/-- A cluster whose API server does not answer the version query. -/
def noVersionCluster : Cluster Unit Nat :=
  ⟨.ok (), fun _ => .ok 7, fun _ => .error "connection refused"⟩

/-- A cluster whose set-up succeeds and whose server reports a version that
is no semantic version. -/
def oddVersionCluster : Cluster Unit Nat :=
  ⟨.ok (), fun _ => .ok 7, fun _ => .ok ⟨"unknown"⟩⟩

/-- A provisioner constructor that records its arguments. -/
def recordProvisioner (kubeClient : Nat)
    (ns mountPoint devicePattern provisionerImage defaultLVMType pullPolicy : String) :
    Nat × List String :=
  (kubeClient, [ns, mountPoint, devicePattern, provisionerImage, defaultLVMType, pullPolicy])

/-- A provision controller as the record of the four arguments it was built
from. -/
structure ProvisionController where
  client : Nat
  provisionerName : String
  provisioner : Nat × List String
  kubeVersion : String
  deriving DecidableEq, Repr

/-- A controller library whose constructor records its arguments and whose
`Run` serves until the process is killed: it does not return. -/
def servingController : ControllerLib Nat (Nat × List String) ProvisionController :=
  ⟨fun client name provisioner version => .returns ⟨client, name, provisioner, version⟩,
   fun _ => .never⟩

/-- A controller library whose constructor records its arguments and whose
`Run` returns. -/
def returningController : ControllerLib Nat (Nat × List String) ProvisionController :=
  ⟨fun client name provisioner version => .returns ⟨client, name, provisioner, version⟩,
   fun _ => .returns ()⟩

/-- A controller library whose constructor panics on the version it is
given. -/
def panickingController : ControllerLib Nat (Nat × List String) ProvisionController :=
  ⟨fun _ _ _ version => .panics ("could not parse version " ++ version),
   fun _ => .never⟩

/-- Nothing given on the command line, nothing set in the environment. -/
def unset : String → Option String := fun _ => none

/-- Only the flag `name` is given, with value `value`. -/
def only (name value : String) : String → Option String :=
  fun n => if n = name then some value else none

end Controller

namespace Provisioner

/-! ## Constants (`cmd/provisioner/main.go`, lines 11-17) -/

def flagLVName : String := "lvname"
def flagLVSize : String := "lvsize"
def flagVGName : String := "vgname"
def flagPVS : String := "pvs"
def flagDirectory : String := "directory"

/-- `cmdNotFound` (lines 19-21) panics with the error
`fmt.Errorf("Unrecognized command: %s", command)`: the result is the panic,
given by the message of its value.  The context argument is not used. -/
def cmdNotFound (command : String) : Except String Unit :=
  .error ("Unrecognized command: " ++ command)

/-- `onUsageError` (lines 23-25) panics with the error
`fmt.Errorf("Usage error, please check your command")` and never returns the
error it is declared to return.  The context argument is not used. -/
def onUsageError (_err : String) (_isSubcommand : Bool) : Except String (Option String) :=
  .error "Usage error, please check your command"

/-- The fields of `cli.App` set by `main`. -/
structure App (Command : Type) where
  Usage : String
  Commands : List Command
  CommandNotFound : String → Except String Unit
  OnUsageError : String → Bool → Except String (Option String)

/-- What a run of the command-line library on `os.Args` comes to: it returns
`err` (from the action of a registered command, from its own help or version
output, or an error of its own); or the verb names no registered command and
it calls the app's `CommandNotFound`; or the arguments of the app are not
well formed and it calls the app's `OnUsageError`. -/
inductive Dispatch where
  | action (err : Option String)
  | commandNotFound (command : String)
  | usageError (err : String) (isSubcommand : Bool)
  deriving DecidableEq, Repr

/-- The run returned an error. -/
def Dispatch.returnedError : Dispatch → Bool
  | .action (some _) => true
  | _ => false

/-- The command verb was unrecognised. -/
def Dispatch.verbUnrecognised : Dispatch → Bool
  | .commandNotFound _ => true
  | _ => false

/-- The arguments of the app were not well formed and the library called
`OnUsageError`. -/
def Dispatch.usageFailed : Dispatch → Bool
  | .usageError _ _ => true
  | _ => false

/-- `p.Run(os.Args)`, by what the run comes to: the library returns `err`,
or calls `p.CommandNotFound` (and then returns `nil`), or returns what
`p.OnUsageError` returns.  A panic of a handler goes through `Run`. -/
def App.Run {Command : Type} (p : App Command) : Dispatch → Except String (Option String)
  | .action err => .ok err
  | .commandNotFound command =>
    match p.CommandNotFound command with
    | .error v => .error v
    | .ok () => .ok none
  | .usageError err isSubcommand => p.OnUsageError err isSubcommand

/-- How the process ends: its exit code and what `main` and the runtime wrote
to its standard error. -/
structure Exit where
  code : Nat
  stderr : String
  deriving DecidableEq, Repr

/-- `log.Fatalf` with the formatted message `msg`: the standard logger writes
its date-and-time header and the message, ending the line if the message does
not, then the process exits with code 1. -/
def logFatalf (header msg : String) : Exit :=
  ⟨1, header ++ msg ++ (if msg.data.getLast? = some '\n' then "" else "\n")⟩

/-- A panic that nothing recovers: the Go runtime writes `panic: `, the
message of the panic value and the goroutine trace, and the process exits
with code 2. -/
def goPanic (value trace : String) : Exit :=
  ⟨2, "panic: " ++ value ++ "\n\n" ++ trace⟩

/-- The app `main` builds (lines 28-35).  `createLVCmd()` and `deleteLVCmd()`
are functions of the package declared in other files; the commands they
return are taken as parameters. -/
def app {Command : Type} (createLVCmd deleteLVCmd : Command) : App Command :=
  { Usage := "LVM Provisioner Pod"
    Commands := [createLVCmd, deleteLVCmd]
    CommandNotFound := cmdNotFound
    OnUsageError := onUsageError }

/-- `main` (lines 27-40): run the app; on an error log it and exit.  `header`
is the logger's date-and-time header and `trace` the goroutine trace of a
panic.  Returning from `main` ends the process with code 0. -/
def main {Command : Type} (createLVCmd deleteLVCmd : Command) (d : Dispatch)
    (header trace : String) : Exit :=
  let p := app createLVCmd deleteLVCmd
  match p.Run d with
  | .error value => goPanic value trace
  | .ok (some err) => logFatalf header ("Critical error: " ++ err)
  | .ok none => ⟨0, ""⟩

end Provisioner

namespace Controller

section helpers
variable {Config Client Prov PC : Type}

/-- With a successful set-up, `startDaemon` is decided by the first empty
configuration value and, when there is none, by the controller library. -/
theorem startDaemon_of_setUp (cluster : Cluster Config Client)
    (lib : ControllerLib Client Prov PC)
    (mk : Client → String → String → String → String → String → String → Prov)
    (c : Context) (kubeClient : Client) (serverVersion : VersionInfo)
    (h : SetUpSucceeds cluster kubeClient serverVersion) :
    startDaemon cluster lib mk c =
      match firstEmpty c with
      | some f => ([.registerShutdownChannel], .returned (some (invalidEmptyFlag f)))
      | none => afterChecks lib mk kubeClient serverVersion c := by
  obtain ⟨config, h1, h2, h3⟩ := h
  simp only [startDaemon, h1, h2, h3, firstEmpty, requiredFlags, afterChecks, constructing,
    provisionerOf]
  by_cases e1 : c.String flagProvisionerName = "" <;>
  by_cases e2 : c.String flagNamespace = "" <;>
  by_cases e3 : c.String flagProvisionerImage = "" <;>
  by_cases e4 : c.String flagDevicePattern = "" <;>
  by_cases e5 : c.String flagDefaultLVMType = "" <;>
  by_cases e6 : c.String flagMountPoint = "" <;>
  by_cases e7 : c.String flagProvisionerPodPullPolicy = "" <;>
  simp [e1, e2, e3, e4, e5, e6, e7]

/-- The first empty value is one of the seven and is empty. -/
theorem firstEmpty_some_spec (c : Context) (f : String) (h : firstEmpty c = some f) :
    f ∈ requiredFlags ∧ c.String f = "" := by
  unfold firstEmpty at h
  exact ⟨List.mem_of_find?_eq_some h, by simpa using List.find?_some h⟩

/-- No value is the first empty one exactly when all seven are non-empty. -/
theorem firstEmpty_eq_none_iff (c : Context) :
    firstEmpty c = none ↔ ∀ f ∈ requiredFlags, c.String f ≠ "" := by
  unfold firstEmpty
  simp [List.find?_eq_none]

/-- A value that is empty while all values before it are not is the first
empty one. -/
theorem firstEmpty_of_split (c : Context) (pre post : List String) (f : String)
    (hsplit : requiredFlags = pre ++ f :: post) (hpre : ∀ g ∈ pre, c.String g ≠ "")
    (hf : c.String f = "") : firstEmpty c = some f := by
  unfold firstEmpty
  rw [List.find?_eq_some]
  refine ⟨by simpa using hf, pre, post, hsplit, ?_⟩
  intro g hg
  simpa using hpre g hg

/-- An empty value among the seven gives a first empty one. -/
theorem exists_firstEmpty (c : Context) (h : ∃ f ∈ requiredFlags, c.String f = "") :
    ∃ f, firstEmpty c = some f := by
  cases hfe : firstEmpty c with
  | some f => exact ⟨f, rfl⟩
  | none =>
    obtain ⟨f, hf, he⟩ := h
    exact absurd he ((firstEmpty_eq_none_iff c).1 hfe f hf)

/-- `find?` only looks at the predicate on the members of the list. -/
theorem find?_congr_mem {α : Type} (p q : α → Bool) :
    ∀ l : List α, (∀ x ∈ l, p x = q x) → l.find? p = l.find? q
  | [], _ => rfl
  | a :: l, h => by
    have ha : p a = q a := h a (List.mem_cons_self a l)
    have hl : l.find? p = l.find? q :=
      find?_congr_mem p q l (fun x hx => h x (List.mem_cons_of_mem a hx))
    simp [List.find?_cons, ha, hl]

/-- Two contexts with the same empty values have the same first empty one. -/
theorem firstEmpty_congr (c c' : Context)
    (h : ∀ f ∈ requiredFlags, (c.String f = "" ↔ c'.String f = "")) :
    firstEmpty c = firstEmpty c' := by
  unfold firstEmpty
  apply find?_congr_mem
  intro f hf
  have := h f hf
  by_cases e : c.String f = ""
  · simp [e, this.1 e]
  · have e' : c'.String f ≠ "" := fun x => e (this.2 x)
    simp [e, e']

/-- The seven names are pairwise distinct. -/
theorem requiredFlags_nodup : requiredFlags.Nodup := by decide

/-- When only `flag` may be empty among the seven, the first empty value is
`flag` or there is none. -/
theorem firstEmpty_of_others (c : Context) (flag : String) (hflag : flag ∈ requiredFlags)
    (hothers : ∀ f ∈ requiredFlags, f ≠ flag → c.String f ≠ "") :
    firstEmpty c = if c.String flag = "" then some flag else none := by
  by_cases he : c.String flag = ""
  · rw [if_pos he]
    obtain ⟨f, hf⟩ := exists_firstEmpty c ⟨flag, hflag, he⟩
    obtain ⟨hmem, hemp⟩ := firstEmpty_some_spec c f hf
    by_cases hff : f = flag
    · rw [hf, hff]
    · exact absurd hemp (hothers f hmem hff)
  · rw [if_neg he, firstEmpty_eq_none_iff]
    intro f hf
    by_cases hff : f = flag
    · rw [hff]; exact he
    · exact hothers f hf hff

/-- When a set-up step fails, `startDaemon` returns that step's wrapped error,
whatever the configuration values. -/
theorem startDaemon_setUp_fails (cluster : Cluster Config Client)
    (lib : ControllerLib Client Prov PC)
    (mk : Client → String → String → String → String → String → String → Prov)
    (c : Context) :
    (∀ e, cluster.InClusterConfig = .error e →
      startDaemon cluster lib mk c =
        ([.registerShutdownChannel],
          .returned (some (errorsWrap e "unable to get client config")))) ∧
    (∀ config e, cluster.InClusterConfig = .ok config →
      cluster.NewForConfig config = .error e →
      startDaemon cluster lib mk c =
        ([.registerShutdownChannel],
          .returned (some (errorsWrap e "unable to get k8s client")))) ∧
    (∀ config kubeClient e, cluster.InClusterConfig = .ok config →
      cluster.NewForConfig config = .ok kubeClient →
      cluster.ServerVersion kubeClient = .error e →
      startDaemon cluster lib mk c =
        ([.registerShutdownChannel],
          .returned (some (errorsWrap e
            "Cannot start Provisioner: failed to get Kubernetes server version")))) := by
  refine ⟨?_, ?_, ?_⟩
  · intro e h1
    simp [startDaemon, h1]
  · intro config e h1 h2
    simp [startDaemon, h1, h2]
  · intro config kubeClient e h1 h2 h3
    simp [startDaemon, h1, h2, h3]

/-- The three ways a start goes: the set-up fails, a value is empty, or the
checks pass and the controller library is called. -/
theorem startDaemon_cases (cluster : Cluster Config Client)
    (lib : ControllerLib Client Prov PC)
    (mk : Client → String → String → String → String → String → String → Prov)
    (c : Context) :
    (∃ e, cluster.setUp = .error e ∧
      startDaemon cluster lib mk c = ([.registerShutdownChannel], .returned (some e))) ∨
    (∃ kubeClient serverVersion f, SetUpSucceeds cluster kubeClient serverVersion ∧
      cluster.setUp = .ok (kubeClient, serverVersion) ∧ firstEmpty c = some f ∧
      startDaemon cluster lib mk c =
        ([.registerShutdownChannel], .returned (some (invalidEmptyFlag f)))) ∨
    (∃ kubeClient serverVersion, SetUpSucceeds cluster kubeClient serverVersion ∧
      firstEmpty c = none ∧
      startDaemon cluster lib mk c = afterChecks lib mk kubeClient serverVersion c) := by
  have hf := startDaemon_setUp_fails cluster lib mk c
  cases h1 : cluster.InClusterConfig with
  | error e => exact Or.inl ⟨_, by simp [Cluster.setUp, h1], hf.1 e h1⟩
  | ok config =>
    cases h2 : cluster.NewForConfig config with
    | error e => exact Or.inl ⟨_, by simp [Cluster.setUp, h1, h2], hf.2.1 config e h1 h2⟩
    | ok kubeClient =>
      cases h3 : cluster.ServerVersion kubeClient with
      | error e =>
        exact Or.inl ⟨_, by simp [Cluster.setUp, h1, h2, h3], hf.2.2 config kubeClient e h1 h2 h3⟩
      | ok serverVersion =>
        have hs : SetUpSucceeds cluster kubeClient serverVersion := ⟨config, h1, h2, h3⟩
        have h := startDaemon_of_setUp cluster lib mk c kubeClient serverVersion hs
        cases hfe : firstEmpty c with
        | some f =>
          rw [hfe] at h
          exact Or.inr (Or.inl ⟨kubeClient, serverVersion, f, hs,
            by simp [Cluster.setUp, h1, h2, h3], rfl, h⟩)
        | none =>
          rw [hfe] at h
          exact Or.inr (Or.inr ⟨kubeClient, serverVersion, hs, rfl, h⟩)

/-- The set-up yields at most one client and server version. -/
theorem SetUpSucceeds_unique (cluster : Cluster Config Client)
    (k k2 : Client) (v v2 : VersionInfo)
    (h : SetUpSucceeds cluster k v) (h2 : SetUpSucceeds cluster k2 v2) : k = k2 ∧ v = v2 := by
  obtain ⟨config, a1, a2, a3⟩ := h
  obtain ⟨config2, b1, b2, b3⟩ := h2
  rw [a1] at b1
  cases b1
  rw [a2] at b2
  cases b2
  rw [a3] at b3
  cases b3
  exact ⟨rfl, rfl⟩

/-- Once the checks have passed, the events begin with the construction of
the provisioner and the call of the controller's constructor; no later event
constructs a provisioner, and the controller is run at most once. -/
theorem afterChecks_events (lib : ControllerLib Client Prov PC)
    (mk : Client → String → String → String → String → String → String → Prov)
    (kubeClient : Client) (serverVersion : VersionInfo) (c : Context) :
    ∃ rest : List (Event Client Prov PC),
      (afterChecks lib mk kubeClient serverVersion c).1 =
        constructing mk kubeClient serverVersion c ++ rest ∧
      (∀ e ∈ rest, e.isNewLVMProvisioner = false) ∧
      rest.countP Event.isRun ≤ 1 := by
  unfold afterChecks
  cases h1 : lib.NewProvisionController kubeClient (c.String flagProvisionerName)
      (provisionerOf mk kubeClient c) serverVersion.GitVersion with
  | panics value => exact ⟨[], by simp, by simp, by simp⟩
  | never => exact ⟨[], by simp, by simp, by simp⟩
  | returns pc =>
    cases h2 : lib.Run pc with
    | panics value =>
      exact ⟨[.Info "Provisioner started", .Run pc], by simp [h2],
        by simp [Event.isNewLVMProvisioner], by simp [List.countP_cons, Event.isRun]⟩
    | never =>
      exact ⟨[.Info "Provisioner started", .Run pc], by simp [h2],
        by simp [Event.isNewLVMProvisioner], by simp [List.countP_cons, Event.isRun]⟩
    | returns u =>
      exact ⟨[.Info "Provisioner started", .Run pc, .Info "Provisioner stopped"],
        by simp [h2], by simp [Event.isNewLVMProvisioner],
        by simp [List.countP_cons, Event.isRun]⟩

/-- Once the checks have passed, `startDaemon` returns no error. -/
theorem afterChecks_no_error (lib : ControllerLib Client Prov PC)
    (mk : Client → String → String → String → String → String → String → Prov)
    (kubeClient : Client) (serverVersion : VersionInfo) (c : Context) (err : String) :
    (afterChecks lib mk kubeClient serverVersion c).2 ≠ .returned (some err) := by
  unfold afterChecks
  cases h1 : lib.NewProvisionController kubeClient (c.String flagProvisionerName)
      (provisionerOf mk kubeClient c) serverVersion.GitVersion with
  | panics value => simp
  | never => simp
  | returns pc =>
    cases h2 : lib.Run pc with
    | panics value => simp [h2]
    | never => simp [h2]
    | returns u => simp [h2]

/-- Once the checks have passed, `startDaemon` returns `nil` exactly when the
constructor returns a controller and its run returns. -/
theorem afterChecks_nil (lib : ControllerLib Client Prov PC)
    (mk : Client → String → String → String → String → String → String → Prov)
    (kubeClient : Client) (serverVersion : VersionInfo) (c : Context) :
    (afterChecks lib mk kubeClient serverVersion c).2 = .returned none ↔
      ∃ pc, lib.NewProvisionController kubeClient (c.String flagProvisionerName)
          (provisionerOf mk kubeClient c) serverVersion.GitVersion = .returns pc ∧
        lib.Run pc = .returns () := by
  unfold afterChecks
  cases h1 : lib.NewProvisionController kubeClient (c.String flagProvisionerName)
      (provisionerOf mk kubeClient c) serverVersion.GitVersion with
  | panics value => simp
  | never => simp
  | returns pc =>
    cases h2 : lib.Run pc with
    | panics value => simp [h2]
    | never => simp [h2]
    | returns u => simp [h2]

/-- The error `startDaemon` returns: the set-up error when a set-up step
fails, else the error naming the first empty value. -/
theorem startDaemon_error (cluster : Cluster Config Client)
    (lib : ControllerLib Client Prov PC)
    (mk : Client → String → String → String → String → String → String → Prov)
    (c : Context) (f : String) (hf : firstEmpty c = some f) :
    startDaemon cluster lib mk c =
      ([.registerShutdownChannel],
       match cluster.setUp with
       | .error e => .returned (some e)
       | .ok _ => .returned (some (invalidEmptyFlag f))) := by
  rcases startDaemon_cases cluster lib mk c with ⟨e, hse, h⟩ | ⟨k, v, g, _, hse, hg, h⟩ |
    ⟨k, v, _, hn, _⟩
  · rw [h, hse]
  · rw [hf] at hg
    cases hg
    rw [h, hse]
  · rw [hf] at hn
    cases hn

/-- A start refused for an empty value builds no provisioner and runs no
controller. -/
theorem startDaemon_refused_events (cluster : Cluster Config Client)
    (lib : ControllerLib Client Prov PC)
    (mk : Client → String → String → String → String → String → String → Prov)
    (c : Context) (kubeClient : Client) (serverVersion : VersionInfo)
    (hs : SetUpSucceeds cluster kubeClient serverVersion) (f : String)
    (hf : firstEmpty c = some f) :
    startDaemon cluster lib mk c =
      ([.registerShutdownChannel], .returned (some (invalidEmptyFlag f))) := by
  rw [startDaemon_of_setUp cluster lib mk c kubeClient serverVersion hs, hf]

/-- With a successful set-up and only `flag` possibly empty among the seven,
`startDaemon` refuses exactly the empty value of `flag`. -/
theorem startDaemon_of_others (cluster : Cluster Config Client)
    (lib : ControllerLib Client Prov PC)
    (mk : Client → String → String → String → String → String → String → Prov)
    (c : Context) (kubeClient : Client) (serverVersion : VersionInfo)
    (hs : SetUpSucceeds cluster kubeClient serverVersion)
    (flag : String) (hflag : flag ∈ requiredFlags)
    (hothers : ∀ f ∈ requiredFlags, f ≠ flag → c.String f ≠ "") :
    startDaemon cluster lib mk c =
      if c.String flag = "" then
        ([.registerShutdownChannel], .returned (some (invalidEmptyFlag flag)))
      else afterChecks lib mk kubeClient serverVersion c := by
  rw [startDaemon_of_setUp cluster lib mk c kubeClient serverVersion hs,
    firstEmpty_of_others c flag hflag hothers]
  by_cases he : c.String flag = "" <;> simp [he]

/-- Every construction of the provisioner in a start is the one from the
values of the context. -/
theorem startDaemon_constructions (cluster : Cluster Config Client)
    (lib : ControllerLib Client Prov PC)
    (mk : Client → String → String → String → String → String → String → Prov)
    (c : Context) (e : Event Client Prov PC)
    (he : e ∈ (startDaemon cluster lib mk c).1) (hnew : e.isNewLVMProvisioner = true) :
    firstEmpty c = none ∧
    ∃ kubeClient serverVersion, SetUpSucceeds cluster kubeClient serverVersion ∧
      e = .NewLVMProvisioner kubeClient (c.String flagNamespace) (c.String flagMountPoint)
        (c.String flagDevicePattern) (c.String flagProvisionerImage)
        (c.String flagDefaultLVMType) (c.String flagProvisionerPodPullPolicy) := by
  rcases startDaemon_cases cluster lib mk c with ⟨x, _, h⟩ | ⟨k, v, g, _, _, _, h⟩ |
    ⟨k, v, hs, hn, h⟩
  · rw [h] at he
    rw [List.mem_singleton.1 he] at hnew
    cases hnew
  · rw [h] at he
    rw [List.mem_singleton.1 he] at hnew
    cases hnew
  · refine ⟨hn, k, v, hs, ?_⟩
    obtain ⟨rest, hev, hrest, _⟩ := afterChecks_events lib mk k v c
    rw [h, hev, List.mem_append] at he
    rcases he with he | he
    · simp only [constructing, List.mem_cons, List.mem_singleton, List.not_mem_nil,
        or_false] at he
      rcases he with he | he | he
      · rw [he] at hnew; cases hnew
      · exact he
      · rw [he] at hnew; cases hnew
    · rw [hrest e he] at hnew
      cases hnew

/-- The values of the `start` command when the layout flag and its
environment variable are unset. -/
theorem startContext_layout_unset (args env : String → Option String)
    (hargs : args flagDefaultLVMType = none) (henv : env envDefaultLVMType = none) :
    (startContext args env).String flagDefaultLVMType = mirrorType := by
  have hargs1 : args "default-lvm-type" = none := hargs
  have henv1 : env "CSI_LVM_DEFAULT_LVM_TYPE" = none := henv
  simp [startContext, newContext, startCmdFlags, StringFlag.resolve, hargs1, henv1,
    flagProvisionerName, flagNamespace, flagProvisionerImage, flagDevicePattern,
    flagDefaultLVMType, envDefaultLVMType, List.find?_cons]

/-- Once the checks have passed, the provisioner is constructed once and the
controller is run at most once, once when its constructor returns. -/
theorem afterChecks_counts (lib : ControllerLib Client Prov PC)
    (mk : Client → String → String → String → String → String → String → Prov)
    (kubeClient : Client) (serverVersion : VersionInfo) (c : Context) :
    (afterChecks lib mk kubeClient serverVersion c).1.countP Event.isNewLVMProvisioner = 1 ∧
    (afterChecks lib mk kubeClient serverVersion c).1.countP Event.isRun ≤ 1 ∧
    (∀ pc, lib.NewProvisionController kubeClient (c.String flagProvisionerName)
        (provisionerOf mk kubeClient c) serverVersion.GitVersion = .returns pc →
      (afterChecks lib mk kubeClient serverVersion c).1.countP Event.isRun = 1) := by
  unfold afterChecks
  cases h1 : lib.NewProvisionController kubeClient (c.String flagProvisionerName)
      (provisionerOf mk kubeClient c) serverVersion.GitVersion with
  | panics value =>
    simp [constructing, List.countP_cons, Event.isRun, Event.isNewLVMProvisioner]
  | never =>
    simp [constructing, List.countP_cons, Event.isRun, Event.isNewLVMProvisioner]
  | returns pc =>
    cases h2 : lib.Run pc with
    | panics value =>
      simp [h2, constructing, List.countP_cons, Event.isRun, Event.isNewLVMProvisioner]
    | never =>
      simp [h2, constructing, List.countP_cons, Event.isRun, Event.isNewLVMProvisioner]
    | returns u =>
      simp [h2, constructing, List.countP_cons, Event.isRun, Event.isNewLVMProvisioner]

/-- Once the checks have passed, the first two events are the shutdown
registration and the construction of the provisioner from the values. -/
theorem afterChecks_take (lib : ControllerLib Client Prov PC)
    (mk : Client → String → String → String → String → String → String → Prov)
    (kubeClient : Client) (serverVersion : VersionInfo) (c : Context) :
    (afterChecks lib mk kubeClient serverVersion c).1.take 2 =
      [.registerShutdownChannel,
       .NewLVMProvisioner kubeClient (c.String flagNamespace) (c.String flagMountPoint)
         (c.String flagDevicePattern) (c.String flagProvisionerImage)
         (c.String flagDefaultLVMType) (c.String flagProvisionerPodPullPolicy)] := by
  obtain ⟨rest, hev, _, _⟩ := afterChecks_events lib mk kubeClient serverVersion c
  rw [hev]
  simp [constructing]

/-- The values of the `start` command when only the device pattern is
given. -/
theorem startContext_only_pattern (pattern : String) :
    (startContext (only flagDevicePattern pattern) unset).String flagProvisionerName =
      "metal-stack.io/csi-lvm" ∧
    (startContext (only flagDevicePattern pattern) unset).String flagNamespace = "csi-lvm" ∧
    (startContext (only flagDevicePattern pattern) unset).String flagProvisionerImage =
      "metalstack/csi-lvm-provisioner" ∧
    (startContext (only flagDevicePattern pattern) unset).String flagDevicePattern = pattern ∧
    (startContext (only flagDevicePattern pattern) unset).String flagDefaultLVMType = "mirror" ∧
    (startContext (only flagDevicePattern pattern) unset).String flagMountPoint =
      "/tmp/csi-lvm" ∧
    (startContext (only flagDevicePattern pattern) unset).String flagProvisionerPodPullPolicy =
      "Always" := by
  refine ⟨?_, ?_, ?_, ?_, ?_, ?_, ?_⟩ <;>
    simp [startContext, newContext, startCmdFlags, StringFlag.resolve, only, unset,
      flagProvisionerName, flagNamespace, flagProvisionerImage, flagDevicePattern,
      flagDefaultLVMType, flagMountPoint, flagProvisionerPodPullPolicy,
      defaultProvisionerName, defaultNamespace, defaultProvisionerImage, mirrorType,
      pullAlways, List.find?_cons]

end helpers

/-! ## The claims about `startDaemon` -/

section claims
variable {Config Client Prov PC : Type}

/-- C1: when the cluster-client set-up succeeds and at least one of the seven
values provisioner-name, namespace, provisioner-image, device-pattern,
default-lvm-type, mountpoint, pull-policy is the empty string, `startDaemon`
returns the error `invalid empty flag <flag name>` for a flag whose value is
empty, and no event of the start is a construction of the LVM provisioner or
a run of the provision controller. -/
theorem startDaemon_empty_value_is_configuration_error
    (cluster : Cluster Config Client) (lib : ControllerLib Client Prov PC)
    (mk : Client → String → String → String → String → String → String → Prov)
    (c : Context) (kubeClient : Client) (serverVersion : VersionInfo)
    (hs : SetUpSucceeds cluster kubeClient serverVersion)
    (he : ∃ f ∈ requiredFlags, c.String f = "") :
    requiredFlags = ["provisioner-name", "namespace", "provisioner-image", "device-pattern",
      "default-lvm-type", "mountpoint", "pull-policy"] ∧
    ∃ f ∈ requiredFlags, c.String f = "" ∧
      (startDaemon cluster lib mk c).2 = .returned (some ("invalid empty flag " ++ f)) ∧
      ∀ e ∈ (startDaemon cluster lib mk c).1,
        e.isNewLVMProvisioner = false ∧ e.isRun = false := by
  refine ⟨rfl, ?_⟩
  obtain ⟨f, hf⟩ := exists_firstEmpty c he
  obtain ⟨hmem, hemp⟩ := firstEmpty_some_spec c f hf
  have h := startDaemon_refused_events cluster lib mk c kubeClient serverVersion hs f hf
  refine ⟨f, hmem, hemp, by rw [h]; rfl, ?_⟩
  intro e hin
  rw [h] at hin
  rw [List.mem_singleton.1 hin]
  exact ⟨rfl, rfl⟩

/-- Witness of C1: a good cluster and the `start` command with nothing set,
where the device pattern is empty. -/
theorem startDaemon_empty_value_is_configuration_error_witness :
    SetUpSucceeds goodCluster 7 ⟨"v1.17.0"⟩ ∧
    (∃ f ∈ requiredFlags, (startContext unset unset).String f = "") ∧
    ∃ f ∈ requiredFlags, (startContext unset unset).String f = "" ∧
      (startDaemon goodCluster servingController recordProvisioner
        (startContext unset unset)).2 = .returned (some ("invalid empty flag " ++ f)) ∧
      ∀ e ∈ (startDaemon goodCluster servingController recordProvisioner
          (startContext unset unset)).1,
        e.isNewLVMProvisioner = false ∧ e.isRun = false :=
  ⟨⟨(), rfl, rfl, rfl⟩, ⟨flagDevicePattern, by decide, by decide⟩,
    (startDaemon_empty_value_is_configuration_error goodCluster servingController
      recordProvisioner (startContext unset unset) 7 ⟨"v1.17.0"⟩ ⟨(), rfl, rfl, rfl⟩
      ⟨flagDevicePattern, by decide, by decide⟩).2⟩

/-- C2, as the claim states it, fails: with a good cluster and the other six
values non-empty, the default LVM type `raid5` is none of linear, striped,
mirror, yet `startDaemon` returns no error, constructs the provisioner with
`raid5` as its default layout and runs the controller. -/
theorem startDaemon_accepts_unknown_lvm_type :
    "raid5" ∉ ["linear", "striped", "mirror"] ∧
    (contextOf "metal-stack.io/csi-lvm" "csi-lvm" "metalstack/csi-lvm-provisioner"
      "/dev/sd[b-d]" "raid5" "/tmp/csi-lvm" "Always").String flagDefaultLVMType = "raid5" ∧
    startDaemon goodCluster servingController recordProvisioner
        (contextOf "metal-stack.io/csi-lvm" "csi-lvm" "metalstack/csi-lvm-provisioner"
          "/dev/sd[b-d]" "raid5" "/tmp/csi-lvm" "Always") =
      ([.registerShutdownChannel,
        .NewLVMProvisioner 7 "csi-lvm" "/tmp/csi-lvm" "/dev/sd[b-d]"
          "metalstack/csi-lvm-provisioner" "raid5" "Always",
        .NewProvisionController 7 "metal-stack.io/csi-lvm"
          (7, ["csi-lvm", "/tmp/csi-lvm", "/dev/sd[b-d]", "metalstack/csi-lvm-provisioner",
            "raid5", "Always"]) "v1.17.0",
        .Info "Provisioner started",
        .Run ⟨7, "metal-stack.io/csi-lvm",
          (7, ["csi-lvm", "/tmp/csi-lvm", "/dev/sd[b-d]", "metalstack/csi-lvm-provisioner",
            "raid5", "Always"]), "v1.17.0"⟩],
       .never) := by
  decide

/-- C2, amended: `startDaemon` checks the default LVM type for emptiness only.
With a successful set-up and the other six values non-empty, it returns the
error `invalid empty flag default-lvm-type` without constructing the
provisioner when the value is empty; for every other value, one of linear,
striped, mirror or not, it returns no error and constructs the provisioner
with that value unchanged, and goes on to the provision controller. -/
theorem startDaemon_lvm_type_refused_only_if_empty
    (cluster : Cluster Config Client) (lib : ControllerLib Client Prov PC)
    (mk : Client → String → String → String → String → String → String → Prov)
    (c : Context) (kubeClient : Client) (serverVersion : VersionInfo)
    (hs : SetUpSucceeds cluster kubeClient serverVersion)
    (hothers : ∀ f ∈ requiredFlags, f ≠ flagDefaultLVMType → c.String f ≠ "") :
    (startDaemon cluster lib mk c =
      if c.String flagDefaultLVMType = "" then
        ([.registerShutdownChannel],
          .returned (some ("invalid empty flag " ++ flagDefaultLVMType)))
      else afterChecks lib mk kubeClient serverVersion c) ∧
    (c.String flagDefaultLVMType ≠ "" →
      (startDaemon cluster lib mk c).1.take 2 =
        [.registerShutdownChannel,
         .NewLVMProvisioner kubeClient (c.String flagNamespace) (c.String flagMountPoint)
           (c.String flagDevicePattern) (c.String flagProvisionerImage)
           (c.String flagDefaultLVMType) (c.String flagProvisionerPodPullPolicy)] ∧
      (startDaemon cluster lib mk c).1.countP Event.isNewLVMProvisioner = 1 ∧
      ∀ err, (startDaemon cluster lib mk c).2 ≠ .returned (some err)) := by
  have h := startDaemon_of_others cluster lib mk c kubeClient serverVersion hs
    flagDefaultLVMType (by decide) hothers
  refine ⟨h, ?_⟩
  intro hne
  rw [h, if_neg hne]
  exact ⟨afterChecks_take lib mk kubeClient serverVersion c,
    (afterChecks_counts lib mk kubeClient serverVersion c).1,
    afterChecks_no_error lib mk kubeClient serverVersion c⟩

/-- Witness of C2, amended: the default LVM type `raid5` with a good cluster. -/
theorem startDaemon_lvm_type_refused_only_if_empty_witness :
    SetUpSucceeds goodCluster 7 ⟨"v1.17.0"⟩ ∧
    (∀ f ∈ requiredFlags, f ≠ flagDefaultLVMType →
      (contextOf "metal-stack.io/csi-lvm" "csi-lvm" "metalstack/csi-lvm-provisioner"
        "/dev/sd[b-d]" "raid5" "/tmp/csi-lvm" "Always").String f ≠ "") ∧
    (contextOf "metal-stack.io/csi-lvm" "csi-lvm" "metalstack/csi-lvm-provisioner"
      "/dev/sd[b-d]" "raid5" "/tmp/csi-lvm" "Always").String flagDefaultLVMType ≠ "" ∧
    ∀ err, (startDaemon goodCluster servingController recordProvisioner
      (contextOf "metal-stack.io/csi-lvm" "csi-lvm" "metalstack/csi-lvm-provisioner"
        "/dev/sd[b-d]" "raid5" "/tmp/csi-lvm" "Always")).2 ≠ .returned (some err) :=
  ⟨⟨(), rfl, rfl, rfl⟩, by decide, by decide,
    ((startDaemon_lvm_type_refused_only_if_empty goodCluster servingController
      recordProvisioner
      (contextOf "metal-stack.io/csi-lvm" "csi-lvm" "metalstack/csi-lvm-provisioner"
        "/dev/sd[b-d]" "raid5" "/tmp/csi-lvm" "Always") 7 ⟨"v1.17.0"⟩
      ⟨(), rfl, rfl, rfl⟩ (by decide)).2 (by decide)).2.2⟩

/-- C5, as the claim states it, fails: with a good cluster and the other six
values non-empty, the pull policy `Never` is neither `Always` nor
`IfNotPresent`, yet `startDaemon` returns no error, constructs the provisioner
with `Never` as its pull policy and runs the controller. -/
theorem startDaemon_accepts_unknown_pull_policy :
    "Never" ∉ ["Always", "IfNotPresent"] ∧
    (contextOf "metal-stack.io/csi-lvm" "csi-lvm" "metalstack/csi-lvm-provisioner"
      "/dev/sd[b-d]" "mirror" "/tmp/csi-lvm" "Never").String flagProvisionerPodPullPolicy
        = "Never" ∧
    startDaemon goodCluster servingController recordProvisioner
        (contextOf "metal-stack.io/csi-lvm" "csi-lvm" "metalstack/csi-lvm-provisioner"
          "/dev/sd[b-d]" "mirror" "/tmp/csi-lvm" "Never") =
      ([.registerShutdownChannel,
        .NewLVMProvisioner 7 "csi-lvm" "/tmp/csi-lvm" "/dev/sd[b-d]"
          "metalstack/csi-lvm-provisioner" "mirror" "Never",
        .NewProvisionController 7 "metal-stack.io/csi-lvm"
          (7, ["csi-lvm", "/tmp/csi-lvm", "/dev/sd[b-d]", "metalstack/csi-lvm-provisioner",
            "mirror", "Never"]) "v1.17.0",
        .Info "Provisioner started",
        .Run ⟨7, "metal-stack.io/csi-lvm",
          (7, ["csi-lvm", "/tmp/csi-lvm", "/dev/sd[b-d]", "metalstack/csi-lvm-provisioner",
            "mirror", "Never"]), "v1.17.0"⟩],
       .never) := by
  decide

/-- C5, amended: `startDaemon` checks the pull policy for emptiness only.
With a successful set-up and the other six values non-empty, it returns the
error `invalid empty flag pull-policy` without constructing the provisioner
when the value is empty; for every other value, `Always`, `IfNotPresent` or
not, it returns no error and constructs the provisioner with that value
unchanged, and goes on to the provision controller. -/
theorem startDaemon_pull_policy_refused_only_if_empty
    (cluster : Cluster Config Client) (lib : ControllerLib Client Prov PC)
    (mk : Client → String → String → String → String → String → String → Prov)
    (c : Context) (kubeClient : Client) (serverVersion : VersionInfo)
    (hs : SetUpSucceeds cluster kubeClient serverVersion)
    (hothers : ∀ f ∈ requiredFlags, f ≠ flagProvisionerPodPullPolicy → c.String f ≠ "") :
    (startDaemon cluster lib mk c =
      if c.String flagProvisionerPodPullPolicy = "" then
        ([.registerShutdownChannel],
          .returned (some ("invalid empty flag " ++ flagProvisionerPodPullPolicy)))
      else afterChecks lib mk kubeClient serverVersion c) ∧
    (c.String flagProvisionerPodPullPolicy ≠ "" →
      (startDaemon cluster lib mk c).1.take 2 =
        [.registerShutdownChannel,
         .NewLVMProvisioner kubeClient (c.String flagNamespace) (c.String flagMountPoint)
           (c.String flagDevicePattern) (c.String flagProvisionerImage)
           (c.String flagDefaultLVMType) (c.String flagProvisionerPodPullPolicy)] ∧
      (startDaemon cluster lib mk c).1.countP Event.isNewLVMProvisioner = 1 ∧
      ∀ err, (startDaemon cluster lib mk c).2 ≠ .returned (some err)) := by
  have h := startDaemon_of_others cluster lib mk c kubeClient serverVersion hs
    flagProvisionerPodPullPolicy (by decide) hothers
  refine ⟨h, ?_⟩
  intro hne
  rw [h, if_neg hne]
  exact ⟨afterChecks_take lib mk kubeClient serverVersion c,
    (afterChecks_counts lib mk kubeClient serverVersion c).1,
    afterChecks_no_error lib mk kubeClient serverVersion c⟩

/-- Witness of C5, amended: the pull policy `Never` with a good cluster. -/
theorem startDaemon_pull_policy_refused_only_if_empty_witness :
    SetUpSucceeds goodCluster 7 ⟨"v1.17.0"⟩ ∧
    (∀ f ∈ requiredFlags, f ≠ flagProvisionerPodPullPolicy →
      (contextOf "metal-stack.io/csi-lvm" "csi-lvm" "metalstack/csi-lvm-provisioner"
        "/dev/sd[b-d]" "mirror" "/tmp/csi-lvm" "Never").String f ≠ "") ∧
    (contextOf "metal-stack.io/csi-lvm" "csi-lvm" "metalstack/csi-lvm-provisioner"
      "/dev/sd[b-d]" "mirror" "/tmp/csi-lvm" "Never").String flagProvisionerPodPullPolicy
        ≠ "" ∧
    ∀ err, (startDaemon goodCluster servingController recordProvisioner
      (contextOf "metal-stack.io/csi-lvm" "csi-lvm" "metalstack/csi-lvm-provisioner"
        "/dev/sd[b-d]" "mirror" "/tmp/csi-lvm" "Never")).2 ≠ .returned (some err) :=
  ⟨⟨(), rfl, rfl, rfl⟩, by decide, by decide,
    ((startDaemon_pull_policy_refused_only_if_empty goodCluster servingController
      recordProvisioner
      (contextOf "metal-stack.io/csi-lvm" "csi-lvm" "metalstack/csi-lvm-provisioner"
        "/dev/sd[b-d]" "mirror" "/tmp/csi-lvm" "Never") 7 ⟨"v1.17.0"⟩
      ⟨(), rfl, rfl, rfl⟩ (by decide)).2 (by decide)).2.2⟩

/-- C4: when every flag and environment variable is left unset and the
cluster-client set-up succeeds, `startDaemon` returns the error
`invalid empty flag device-pattern`; the other six values have non-empty
defaults, and they pass their checks: with the device pattern alone given any
non-empty value, `startDaemon` returns no error and constructs the
provisioner from the pattern and the six defaults. -/
theorem startDaemon_requires_device_pattern
    (cluster : Cluster Config Client) (lib : ControllerLib Client Prov PC)
    (mk : Client → String → String → String → String → String → String → Prov)
    (kubeClient : Client) (serverVersion : VersionInfo)
    (hs : SetUpSucceeds cluster kubeClient serverVersion) :
    startDaemon cluster lib mk (startContext unset unset) =
      ([.registerShutdownChannel],
        .returned (some "invalid empty flag device-pattern")) ∧
    (startContext unset unset).String flagDevicePattern = "" ∧
    (∀ f ∈ requiredFlags, f ≠ flagDevicePattern → (startContext unset unset).String f ≠ "") ∧
    (∀ pattern : String, pattern ≠ "" →
      (∀ err, (startDaemon cluster lib mk
        (startContext (only flagDevicePattern pattern) unset)).2 ≠ .returned (some err)) ∧
      (startDaemon cluster lib mk
          (startContext (only flagDevicePattern pattern) unset)).1.take 2 =
        [.registerShutdownChannel,
         .NewLVMProvisioner kubeClient "csi-lvm" "/tmp/csi-lvm" pattern
           "metalstack/csi-lvm-provisioner" "mirror" "Always"]) := by
  have hfirst : firstEmpty (startContext unset unset) = some flagDevicePattern := by decide
  refine ⟨?_, by decide, by decide, ?_⟩
  · rw [startDaemon_refused_events cluster lib mk _ kubeClient serverVersion hs _ hfirst]
    rfl
  · intro pattern hp
    obtain ⟨v1, v2, v3, v4, v5, v6, v7⟩ := startContext_only_pattern pattern
    have hnone : firstEmpty (startContext (only flagDevicePattern pattern) unset) = none := by
      rw [firstEmpty_eq_none_iff]
      intro f hf
      simp only [requiredFlags, List.mem_cons, List.mem_singleton, List.not_mem_nil,
        or_false] at hf
      rcases hf with h | h | h | h | h | h | h <;> subst h
      · rw [v1]; decide
      · rw [v2]; decide
      · rw [v3]; decide
      · rw [v4]; exact hp
      · rw [v5]; decide
      · rw [v6]; decide
      · rw [v7]; decide
    have h := startDaemon_of_setUp cluster lib mk
      (startContext (only flagDevicePattern pattern) unset) kubeClient serverVersion hs
    rw [hnone] at h
    rw [h]
    refine ⟨afterChecks_no_error lib mk kubeClient serverVersion _, ?_⟩
    rw [afterChecks_take, v2, v3, v4, v5, v6, v7]

/-- Witness of C4: a good cluster. -/
theorem startDaemon_requires_device_pattern_witness :
    SetUpSucceeds goodCluster 7 ⟨"v1.17.0"⟩ ∧
    startDaemon goodCluster servingController recordProvisioner (startContext unset unset) =
      ([.registerShutdownChannel],
        .returned (some "invalid empty flag device-pattern")) :=
  ⟨⟨(), rfl, rfl, rfl⟩,
    (startDaemon_requires_device_pattern goodCluster servingController recordProvisioner 7
      ⟨"v1.17.0"⟩ ⟨(), rfl, rfl, rfl⟩).1⟩

/-- C3, as the claim states it, fails: with the default-lvm-type flag and its
environment variable unset the value the `start` command reads is `mirror`,
not `linear`, and a controller started so (only the device pattern given) is
constructed with the layout `mirror`; with the value set to the empty string
`startDaemon` returns an error and starts with no layout at all. -/
theorem default_layout_is_not_linear :
    (startContext unset unset).String flagDefaultLVMType = "mirror" ∧
    "mirror" ≠ "linear" ∧
    startDaemon goodCluster servingController recordProvisioner
        (startContext (only flagDevicePattern "/dev/sd[b-d]") unset) =
      ([.registerShutdownChannel,
        .NewLVMProvisioner 7 "csi-lvm" "/tmp/csi-lvm" "/dev/sd[b-d]"
          "metalstack/csi-lvm-provisioner" "mirror" "Always",
        .NewProvisionController 7 "metal-stack.io/csi-lvm"
          (7, ["csi-lvm", "/tmp/csi-lvm", "/dev/sd[b-d]", "metalstack/csi-lvm-provisioner",
            "mirror", "Always"]) "v1.17.0",
        .Info "Provisioner started",
        .Run ⟨7, "metal-stack.io/csi-lvm",
          (7, ["csi-lvm", "/tmp/csi-lvm", "/dev/sd[b-d]", "metalstack/csi-lvm-provisioner",
            "mirror", "Always"]), "v1.17.0"⟩],
       .never) ∧
    startDaemon goodCluster servingController recordProvisioner
        (startContext (only flagDevicePattern "/dev/sd[b-d]") (only envDefaultLVMType "")) =
      ([.registerShutdownChannel],
        .returned (some "invalid empty flag default-lvm-type")) := by
  decide

/-- C3, amended: when the default-lvm-type flag and its environment variable
are left unset, the value `startDaemon` reads is the flag's declared default
`mirror`; every provisioner it constructs, whatever the cluster and the
controller library do, is constructed with the layout `mirror`, and it does
construct one whenever the cluster-client set-up succeeds and the other six
values are non-empty.  When the value is the empty string, `startDaemon`
returns an error, constructs no provisioner and runs no controller; the error
is an `invalid empty flag` error when the cluster-client set-up succeeds. -/
theorem default_layout_is_mirror
    (cluster : Cluster Config Client) (lib : ControllerLib Client Prov PC)
    (mk : Client → String → String → String → String → String → String → Prov)
    (args env : String → Option String) :
    (args flagDefaultLVMType = none → env envDefaultLVMType = none →
      (startContext args env).String flagDefaultLVMType = "mirror" ∧
      (∀ (k : Client) (a b d i l p : String),
        Event.NewLVMProvisioner k a b d i l p ∈
          (startDaemon cluster lib mk (startContext args env)).1 → l = "mirror") ∧
      (∀ (kubeClient : Client) (serverVersion : VersionInfo),
        SetUpSucceeds cluster kubeClient serverVersion →
        (∀ f ∈ requiredFlags, f ≠ flagDefaultLVMType →
          (startContext args env).String f ≠ "") →
        (startDaemon cluster lib mk (startContext args env)).1.take 2 =
          [.registerShutdownChannel,
           .NewLVMProvisioner kubeClient
             ((startContext args env).String flagNamespace)
             ((startContext args env).String flagMountPoint)
             ((startContext args env).String flagDevicePattern)
             ((startContext args env).String flagProvisionerImage)
             "mirror"
             ((startContext args env).String flagProvisionerPodPullPolicy)])) ∧
    ((startContext args env).String flagDefaultLVMType = "" →
      (∃ err, (startDaemon cluster lib mk (startContext args env)).2 = .returned (some err)) ∧
      (∀ e ∈ (startDaemon cluster lib mk (startContext args env)).1,
        e.isNewLVMProvisioner = false ∧ e.isRun = false) ∧
      (∀ (kubeClient : Client) (serverVersion : VersionInfo),
        SetUpSucceeds cluster kubeClient serverVersion →
        ∃ f ∈ requiredFlags,
          (startDaemon cluster lib mk (startContext args env)).2 =
            .returned (some ("invalid empty flag " ++ f)))) := by
  constructor
  · intro hargs henv
    have hm : (startContext args env).String flagDefaultLVMType = "mirror" :=
      startContext_layout_unset args env hargs henv
    refine ⟨hm, ?_, ?_⟩
    · intro k a b d i l p hin
      obtain ⟨_, k2, v2, _, heq⟩ :=
        startDaemon_constructions cluster lib mk (startContext args env) _ hin rfl
      injection heq with _ _ _ _ _ hl _
      rw [hl, hm]
    · intro kubeClient serverVersion hs hothers
      have h := startDaemon_of_others cluster lib mk (startContext args env) kubeClient
        serverVersion hs flagDefaultLVMType (by decide) hothers
      have hne : (startContext args env).String flagDefaultLVMType ≠ "" := by
        rw [hm]; decide
      rw [h, if_neg hne, afterChecks_take, hm]
  · intro hemp
    obtain ⟨f, hf⟩ := exists_firstEmpty (startContext args env)
      ⟨flagDefaultLVMType, by decide, hemp⟩
    have h := startDaemon_error cluster lib mk (startContext args env) f hf
    refine ⟨?_, ?_, ?_⟩
    · rw [h]
      cases cluster.setUp with
      | error e => exact ⟨e, rfl⟩
      | ok r => exact ⟨invalidEmptyFlag f, rfl⟩
    · intro e hin
      rw [h] at hin
      rw [List.mem_singleton.1 hin]
      exact ⟨rfl, rfl⟩
    · intro kubeClient serverVersion hs
      refine ⟨f, (firstEmpty_some_spec _ f hf).1, ?_⟩
      rw [startDaemon_refused_events cluster lib mk _ kubeClient serverVersion hs f hf]
      rfl

/-- Witness of C3, amended: a good cluster, once with only the device pattern
given (the provisioner is constructed, with `mirror`), once with the layout
set to the empty string in the environment (the start is refused). -/
theorem default_layout_is_mirror_witness :
    SetUpSucceeds goodCluster 7 ⟨"v1.17.0"⟩ ∧
    only flagDevicePattern "/dev/sd[b-d]" flagDefaultLVMType = none ∧
    unset envDefaultLVMType = none ∧
    (∀ f ∈ requiredFlags, f ≠ flagDefaultLVMType →
      (startContext (only flagDevicePattern "/dev/sd[b-d]") unset).String f ≠ "") ∧
    (startDaemon goodCluster servingController recordProvisioner
        (startContext (only flagDevicePattern "/dev/sd[b-d]") unset)).1.take 2 =
      [.registerShutdownChannel,
       .NewLVMProvisioner 7 "csi-lvm" "/tmp/csi-lvm" "/dev/sd[b-d]"
         "metalstack/csi-lvm-provisioner" "mirror" "Always"] ∧
    (startContext unset (only envDefaultLVMType "")).String flagDefaultLVMType = "" ∧
    ∃ f ∈ requiredFlags,
      (startDaemon goodCluster servingController recordProvisioner
        (startContext unset (only envDefaultLVMType ""))).2 =
          .returned (some ("invalid empty flag " ++ f)) :=
  ⟨⟨(), rfl, rfl, rfl⟩, by decide, rfl, by decide,
    ((default_layout_is_mirror goodCluster servingController recordProvisioner
      (only flagDevicePattern "/dev/sd[b-d]") unset).1 (by decide) rfl).2.2 7 ⟨"v1.17.0"⟩
      ⟨(), rfl, rfl, rfl⟩ (by decide),
    by decide,
    ((default_layout_is_mirror goodCluster servingController recordProvisioner
      unset (only envDefaultLVMType "")).2 (by decide)).2.2 7 ⟨"v1.17.0"⟩
      ⟨(), rfl, rfl, rfl⟩⟩

/-- C8, as the claim states it, fails: with every configuration value empty
and no in-cluster config, `startDaemon` returns the wrapped set-up error and
not the configuration error of any of the seven values. -/
theorem startDaemon_setUp_error_masks_empty_value :
    (∀ f ∈ requiredFlags, (contextOf "" "" "" "" "" "" "").String f = "") ∧
    (startDaemon noConfigCluster servingController recordProvisioner
      (contextOf "" "" "" "" "" "" "")).2 =
      .returned (some "unable to get client config: unable to load in-cluster configuration") ∧
    ∀ f ∈ requiredFlags,
      (startDaemon noConfigCluster servingController recordProvisioner
        (contextOf "" "" "" "" "" "" "")).2 ≠
        .returned (some ("invalid empty flag " ++ f)) := by
  decide

/-- C8, amended: for every start-up in which one of the seven configuration
values is empty, `startDaemon` returns the configuration error for the first
empty value when the cluster-client set-up succeeds; when obtaining the
in-cluster config, building the client or querying the server version fails,
it returns the wrapped error of that step instead, whatever the values: the
cluster is accessed before the values are checked. -/
theorem startDaemon_empty_value_after_setUp
    (cluster : Cluster Config Client) (lib : ControllerLib Client Prov PC)
    (mk : Client → String → String → String → String → String → String → Prov)
    (c : Context) (he : ∃ f ∈ requiredFlags, c.String f = "") :
    ∃ f ∈ requiredFlags, c.String f = "" ∧ firstEmpty c = some f ∧
      (startDaemon cluster lib mk c).2 =
        match cluster.InClusterConfig with
        | .error err => .returned (some ("unable to get client config" ++ ": " ++ err))
        | .ok config =>
          match cluster.NewForConfig config with
          | .error err => .returned (some ("unable to get k8s client" ++ ": " ++ err))
          | .ok kubeClient =>
            match cluster.ServerVersion kubeClient with
            | .error err =>
              .returned
                (some ("Cannot start Provisioner: failed to get Kubernetes server version"
                  ++ ": " ++ err))
            | .ok _ => .returned (some ("invalid empty flag " ++ f)) := by
  obtain ⟨f, hf⟩ := exists_firstEmpty c he
  obtain ⟨hmem, hemp⟩ := firstEmpty_some_spec c f hf
  refine ⟨f, hmem, hemp, hf, ?_⟩
  rw [startDaemon_error cluster lib mk c f hf]
  unfold Cluster.setUp
  cases h1 : cluster.InClusterConfig with
  | error e => rfl
  | ok config =>
    cases h2 : cluster.NewForConfig config with
    | error e => simp [h2, errorsWrap]
    | ok kubeClient =>
      cases h3 : cluster.ServerVersion kubeClient with
      | error e => simp [h2, h3, errorsWrap]
      | ok v => simp [h2, h3, invalidEmptyFlag]

/-- Witness of C8, amended: every value empty, once with a good cluster and
once without an in-cluster config. -/
theorem startDaemon_empty_value_after_setUp_witness :
    (∃ f ∈ requiredFlags, (contextOf "" "" "" "" "" "" "").String f = "") ∧
    (∃ f ∈ requiredFlags, firstEmpty (contextOf "" "" "" "" "" "" "") = some f ∧
      (startDaemon goodCluster servingController recordProvisioner
        (contextOf "" "" "" "" "" "" "")).2 = .returned (some ("invalid empty flag " ++ f))) ∧
    (startDaemon noConfigCluster servingController recordProvisioner
      (contextOf "" "" "" "" "" "" "")).2 =
      .returned
        (some "unable to get client config: unable to load in-cluster configuration") := by
  obtain ⟨f, hmem, _, hf, hres⟩ :=
    startDaemon_empty_value_after_setUp goodCluster servingController recordProvisioner
      (contextOf "" "" "" "" "" "" "") ⟨flagProvisionerName, by decide, by decide⟩
  obtain ⟨_, _, _, _, hres2⟩ :=
    startDaemon_empty_value_after_setUp noConfigCluster servingController recordProvisioner
      (contextOf "" "" "" "" "" "" "") ⟨flagProvisionerName, by decide, by decide⟩
  exact ⟨⟨flagProvisionerName, by decide, by decide⟩, ⟨f, hmem, hf, hres⟩, hres2⟩

/-- C9, as the claim states it, fails: with a good cluster and all seven
values non-empty, a provision controller whose `Run` serves until the process
is killed keeps `startDaemon` in that call, so it does not return `nil`; and
when the constructor of the provision controller panics on the server's
version, the panic goes through `startDaemon` and the controller is not run
at all. -/
theorem startDaemon_does_not_return_nil :
    (∀ f ∈ requiredFlags,
      (contextOf "metal-stack.io/csi-lvm" "csi-lvm" "metalstack/csi-lvm-provisioner"
        "/dev/sd[b-d]" "striped" "/tmp/csi-lvm" "IfNotPresent").String f ≠ "") ∧
    startDaemon goodCluster servingController recordProvisioner
        (contextOf "metal-stack.io/csi-lvm" "csi-lvm" "metalstack/csi-lvm-provisioner"
          "/dev/sd[b-d]" "striped" "/tmp/csi-lvm" "IfNotPresent") =
      ([.registerShutdownChannel,
        .NewLVMProvisioner 7 "csi-lvm" "/tmp/csi-lvm" "/dev/sd[b-d]"
          "metalstack/csi-lvm-provisioner" "striped" "IfNotPresent",
        .NewProvisionController 7 "metal-stack.io/csi-lvm"
          (7, ["csi-lvm", "/tmp/csi-lvm", "/dev/sd[b-d]", "metalstack/csi-lvm-provisioner",
            "striped", "IfNotPresent"]) "v1.17.0",
        .Info "Provisioner started",
        .Run ⟨7, "metal-stack.io/csi-lvm",
          (7, ["csi-lvm", "/tmp/csi-lvm", "/dev/sd[b-d]", "metalstack/csi-lvm-provisioner",
            "striped", "IfNotPresent"]), "v1.17.0"⟩],
       .never) ∧
    (startDaemon goodCluster servingController recordProvisioner
      (contextOf "metal-stack.io/csi-lvm" "csi-lvm" "metalstack/csi-lvm-provisioner"
        "/dev/sd[b-d]" "striped" "/tmp/csi-lvm" "IfNotPresent")).2 ≠ .returned none ∧
    startDaemon oddVersionCluster panickingController recordProvisioner
        (contextOf "metal-stack.io/csi-lvm" "csi-lvm" "metalstack/csi-lvm-provisioner"
          "/dev/sd[b-d]" "striped" "/tmp/csi-lvm" "IfNotPresent") =
      ([.registerShutdownChannel,
        .NewLVMProvisioner 7 "csi-lvm" "/tmp/csi-lvm" "/dev/sd[b-d]"
          "metalstack/csi-lvm-provisioner" "striped" "IfNotPresent",
        .NewProvisionController 7 "metal-stack.io/csi-lvm"
          (7, ["csi-lvm", "/tmp/csi-lvm", "/dev/sd[b-d]", "metalstack/csi-lvm-provisioner",
            "striped", "IfNotPresent"]) "unknown"],
       .panicked "could not parse version unknown") ∧
    (startDaemon oddVersionCluster panickingController recordProvisioner
      (contextOf "metal-stack.io/csi-lvm" "csi-lvm" "metalstack/csi-lvm-provisioner"
        "/dev/sd[b-d]" "striped" "/tmp/csi-lvm" "IfNotPresent")).1.countP Event.isRun = 0 := by
  decide

/-- C9, amended: with all seven values non-empty and a successful
cluster-client set-up, `startDaemon` returns no error; it passes namespace,
mountpoint, device-pattern, provisioner-image, default-lvm-type and
pull-policy unchanged, in that order, to `NewLVMProvisioner`, once, and passes
the provisioner name, that provisioner and the server's `GitVersion`
unchanged to `NewProvisionController`.  When that constructor returns a
controller, `startDaemon` runs it exactly once, and returns `nil` when that
run returns; a panic of the constructor or of the run goes through
`startDaemon`, and a call that does not return keeps `startDaemon` from
returning.  `startDaemon` returns `nil` only after a successful set-up with
all seven values non-empty, a constructed controller and a run that
returned. -/
theorem startDaemon_passes_values_unchanged
    (cluster : Cluster Config Client) (lib : ControllerLib Client Prov PC)
    (mk : Client → String → String → String → String → String → String → Prov)
    (c : Context) :
    (∀ (kubeClient : Client) (serverVersion : VersionInfo),
      SetUpSucceeds cluster kubeClient serverVersion →
      (∀ f ∈ requiredFlags, c.String f ≠ "") →
      constructing mk kubeClient serverVersion c =
        ([.registerShutdownChannel,
          .NewLVMProvisioner kubeClient (c.String flagNamespace) (c.String flagMountPoint)
            (c.String flagDevicePattern) (c.String flagProvisionerImage)
            (c.String flagDefaultLVMType) (c.String flagProvisionerPodPullPolicy),
          .NewProvisionController kubeClient (c.String flagProvisionerName)
            (mk kubeClient (c.String flagNamespace) (c.String flagMountPoint)
              (c.String flagDevicePattern) (c.String flagProvisionerImage)
              (c.String flagDefaultLVMType) (c.String flagProvisionerPodPullPolicy))
            serverVersion.GitVersion] : List (Event Client Prov PC)) ∧
      startDaemon cluster lib mk c =
        (match lib.NewProvisionController kubeClient (c.String flagProvisionerName)
            (mk kubeClient (c.String flagNamespace) (c.String flagMountPoint)
              (c.String flagDevicePattern) (c.String flagProvisionerImage)
              (c.String flagDefaultLVMType) (c.String flagProvisionerPodPullPolicy))
            serverVersion.GitVersion with
        | .panics value => (constructing mk kubeClient serverVersion c, .panicked value)
        | .never => (constructing mk kubeClient serverVersion c, .never)
        | .returns pc =>
          match lib.Run pc with
          | .panics value =>
            (constructing mk kubeClient serverVersion c ++
              [.Info "Provisioner started", .Run pc], .panicked value)
          | .never =>
            (constructing mk kubeClient serverVersion c ++
              [.Info "Provisioner started", .Run pc], .never)
          | .returns () =>
            (constructing mk kubeClient serverVersion c ++
              [.Info "Provisioner started", .Run pc, .Info "Provisioner stopped"],
             .returned none)) ∧
      (startDaemon cluster lib mk c).1.countP Event.isNewLVMProvisioner = 1 ∧
      (startDaemon cluster lib mk c).1.countP Event.isRun ≤ 1 ∧
      (∀ pc, lib.NewProvisionController kubeClient (c.String flagProvisionerName)
          (mk kubeClient (c.String flagNamespace) (c.String flagMountPoint)
            (c.String flagDevicePattern) (c.String flagProvisionerImage)
            (c.String flagDefaultLVMType) (c.String flagProvisionerPodPullPolicy))
          serverVersion.GitVersion = .returns pc →
        (startDaemon cluster lib mk c).1.countP Event.isRun = 1 ∧
        (lib.Run pc = .returns () → (startDaemon cluster lib mk c).2 = .returned none)) ∧
      ∀ err, (startDaemon cluster lib mk c).2 ≠ .returned (some err)) ∧
    ((startDaemon cluster lib mk c).2 = .returned none →
      (∀ f ∈ requiredFlags, c.String f ≠ "") ∧
      ∃ kubeClient serverVersion pc, SetUpSucceeds cluster kubeClient serverVersion ∧
        lib.NewProvisionController kubeClient (c.String flagProvisionerName)
          (mk kubeClient (c.String flagNamespace) (c.String flagMountPoint)
            (c.String flagDevicePattern) (c.String flagProvisionerImage)
            (c.String flagDefaultLVMType) (c.String flagProvisionerPodPullPolicy))
          serverVersion.GitVersion = .returns pc ∧
        lib.Run pc = .returns ()) := by
  constructor
  · intro kubeClient serverVersion hs hne
    have hfe : firstEmpty c = none := (firstEmpty_eq_none_iff c).2 hne
    have h := startDaemon_of_setUp cluster lib mk c kubeClient serverVersion hs
    rw [hfe] at h
    have hc := afterChecks_counts lib mk kubeClient serverVersion c
    refine ⟨rfl, ?_, ?_, ?_, ?_, ?_⟩
    · rw [h]; rfl
    · rw [h]; exact hc.1
    · rw [h]; exact hc.2.1
    · intro pc hpc
      rw [h]
      refine ⟨hc.2.2 pc hpc, ?_⟩
      intro hrun
      exact (afterChecks_nil lib mk kubeClient serverVersion c).2 ⟨pc, hpc, hrun⟩
    · intro err
      rw [h]
      exact afterChecks_no_error lib mk kubeClient serverVersion c err
  · intro hnil
    rcases startDaemon_cases cluster lib mk c with ⟨x, _, h⟩ | ⟨k, v, g, _, _, _, h⟩ |
      ⟨k, v, hs, hn, h⟩
    · rw [h] at hnil
      simp at hnil
    · rw [h] at hnil
      simp at hnil
    · rw [h] at hnil
      obtain ⟨pc, hpc, hrun⟩ := (afterChecks_nil lib mk k v c).1 hnil
      exact ⟨(firstEmpty_eq_none_iff c).1 hn, k, v, pc, hs, hpc, hrun⟩

/-- Witness of C9, amended: a good cluster and seven non-empty values, once
with a controller whose run does not return and once with one whose run
returns. -/
theorem startDaemon_passes_values_unchanged_witness :
    SetUpSucceeds goodCluster 7 ⟨"v1.17.0"⟩ ∧
    (∀ f ∈ requiredFlags,
      (contextOf "metal-stack.io/csi-lvm" "csi-lvm" "metalstack/csi-lvm-provisioner"
        "/dev/sd[b-d]" "striped" "/tmp/csi-lvm" "IfNotPresent").String f ≠ "") ∧
    (startDaemon goodCluster servingController recordProvisioner
      (contextOf "metal-stack.io/csi-lvm" "csi-lvm" "metalstack/csi-lvm-provisioner"
        "/dev/sd[b-d]" "striped" "/tmp/csi-lvm" "IfNotPresent")).1.countP Event.isRun = 1 ∧
    (startDaemon goodCluster returningController recordProvisioner
      (contextOf "metal-stack.io/csi-lvm" "csi-lvm" "metalstack/csi-lvm-provisioner"
        "/dev/sd[b-d]" "striped" "/tmp/csi-lvm" "IfNotPresent")).2 = .returned none :=
  ⟨⟨(), rfl, rfl, rfl⟩, by decide,
    (((startDaemon_passes_values_unchanged goodCluster servingController recordProvisioner
      (contextOf "metal-stack.io/csi-lvm" "csi-lvm" "metalstack/csi-lvm-provisioner"
        "/dev/sd[b-d]" "striped" "/tmp/csi-lvm" "IfNotPresent")).1 7 ⟨"v1.17.0"⟩
      ⟨(), rfl, rfl, rfl⟩ (by decide)).2.2.2.2.1
      ⟨7, "metal-stack.io/csi-lvm",
        (7, ["csi-lvm", "/tmp/csi-lvm", "/dev/sd[b-d]", "metalstack/csi-lvm-provisioner",
          "striped", "IfNotPresent"]), "v1.17.0"⟩ rfl).1,
    (((startDaemon_passes_values_unchanged goodCluster returningController recordProvisioner
      (contextOf "metal-stack.io/csi-lvm" "csi-lvm" "metalstack/csi-lvm-provisioner"
        "/dev/sd[b-d]" "striped" "/tmp/csi-lvm" "IfNotPresent")).1 7 ⟨"v1.17.0"⟩
      ⟨(), rfl, rfl, rfl⟩ (by decide)).2.2.2.2.1
      ⟨7, "metal-stack.io/csi-lvm",
        (7, ["csi-lvm", "/tmp/csi-lvm", "/dev/sd[b-d]", "metalstack/csi-lvm-provisioner",
          "striped", "IfNotPresent"]), "v1.17.0"⟩ rfl).2 rfl⟩

/-- C10, as the claim states it, fails: with the namespace and the mountpoint
empty and an API server that does not answer the version query, the error
`startDaemon` returns names no flag; and with the same values and a good
cluster the result is another one, so it does not depend on the empty values
alone. -/
theorem startDaemon_error_names_no_flag :
    (contextOf "metal-stack.io/csi-lvm" "" "metalstack/csi-lvm-provisioner" "/dev/sd[b-d]"
      "mirror" "" "Always").String flagNamespace = "" ∧
    (contextOf "metal-stack.io/csi-lvm" "" "metalstack/csi-lvm-provisioner" "/dev/sd[b-d]"
      "mirror" "" "Always").String flagMountPoint = "" ∧
    (startDaemon noVersionCluster servingController recordProvisioner
      (contextOf "metal-stack.io/csi-lvm" "" "metalstack/csi-lvm-provisioner" "/dev/sd[b-d]"
        "mirror" "" "Always")).2 =
      .returned (some ("Cannot start Provisioner: failed to get Kubernetes server version: " ++
        "connection refused")) ∧
    (∀ f ∈ requiredFlags,
      (startDaemon noVersionCluster servingController recordProvisioner
        (contextOf "metal-stack.io/csi-lvm" "" "metalstack/csi-lvm-provisioner" "/dev/sd[b-d]"
          "mirror" "" "Always")).2 ≠ .returned (some ("invalid empty flag " ++ f))) ∧
    (startDaemon goodCluster servingController recordProvisioner
      (contextOf "metal-stack.io/csi-lvm" "" "metalstack/csi-lvm-provisioner" "/dev/sd[b-d]"
        "mirror" "" "Always")).2 = .returned (some "invalid empty flag namespace") := by
  decide

/-- C10, amended: when the cluster-client set-up succeeds, the error returned
by `startDaemon` names the first empty value in the fixed order
provisioner-name, namespace, provisioner-image, device-pattern,
default-lvm-type, mountpoint, pull-policy; the returned error is the same for
any two configurations with the same empty values (and so is the whole start
when a value is empty); and with all seven values non-empty, whitespace
included, `startDaemon` returns no error and constructs the provisioner from
the values. -/
theorem startDaemon_names_first_empty_value
    (cluster : Cluster Config Client) (lib : ControllerLib Client Prov PC)
    (mk : Client → String → String → String → String → String → String → Prov)
    (c : Context) (kubeClient : Client) (serverVersion : VersionInfo)
    (hs : SetUpSucceeds cluster kubeClient serverVersion) :
    requiredFlags = ["provisioner-name", "namespace", "provisioner-image", "device-pattern",
      "default-lvm-type", "mountpoint", "pull-policy"] ∧
    (∀ (before after : List String) (f : String), requiredFlags = before ++ f :: after →
      (∀ g ∈ before, c.String g ≠ "") → c.String f = "" →
      (startDaemon cluster lib mk c).2 = .returned (some ("invalid empty flag " ++ f))) ∧
    (∀ c2 : Context, (∀ f ∈ requiredFlags, (c.String f = "" ↔ c2.String f = "")) →
      (∀ err, (startDaemon cluster lib mk c2).2 = .returned (some err) ↔
        (startDaemon cluster lib mk c).2 = .returned (some err)) ∧
      ((∃ f ∈ requiredFlags, c.String f = "") →
        startDaemon cluster lib mk c2 = startDaemon cluster lib mk c)) ∧
    ((∀ f ∈ requiredFlags, c.String f ≠ "") →
      (∀ err, (startDaemon cluster lib mk c).2 ≠ .returned (some err)) ∧
      (startDaemon cluster lib mk c).1.take 2 =
        [.registerShutdownChannel,
         .NewLVMProvisioner kubeClient (c.String flagNamespace) (c.String flagMountPoint)
           (c.String flagDevicePattern) (c.String flagProvisionerImage)
           (c.String flagDefaultLVMType) (c.String flagProvisionerPodPullPolicy)]) := by
  have hc := startDaemon_of_setUp cluster lib mk c kubeClient serverVersion hs
  refine ⟨rfl, ?_, ?_, ?_⟩
  · intro before after f hsplit hpre hf
    rw [hc, firstEmpty_of_split c before after f hsplit hpre hf]
    rfl
  · intro c2 hsame
    have hc2 := startDaemon_of_setUp cluster lib mk c2 kubeClient serverVersion hs
    have hcongr := firstEmpty_congr c c2 hsame
    constructor
    · intro err
      rw [hc, hc2, ← hcongr]
      cases hfe : firstEmpty c with
      | some f => exact Iff.rfl
      | none =>
        exact ⟨fun h => absurd h (afterChecks_no_error lib mk kubeClient serverVersion c2 err),
          fun h => absurd h (afterChecks_no_error lib mk kubeClient serverVersion c err)⟩
    · intro he
      obtain ⟨f, hf⟩ := exists_firstEmpty c he
      rw [hc, hc2, ← hcongr, hf]
  · intro hne
    rw [hc, (firstEmpty_eq_none_iff c).2 hne]
    exact ⟨afterChecks_no_error lib mk kubeClient serverVersion c,
      afterChecks_take lib mk kubeClient serverVersion c⟩

/-- Witness of C10, amended: a good cluster, once with the namespace and the
mountpoint empty, once with seven values of whitespace. -/
theorem startDaemon_names_first_empty_value_witness :
    SetUpSucceeds goodCluster 7 ⟨"v1.17.0"⟩ ∧
    (startDaemon goodCluster servingController recordProvisioner
      (contextOf "metal-stack.io/csi-lvm" "" "metalstack/csi-lvm-provisioner" "/dev/sd[b-d]"
        "mirror" "" "Always")).2 = .returned (some ("invalid empty flag " ++ flagNamespace)) ∧
    (∀ f ∈ requiredFlags, (contextOf " " " " " " " " " " " " " ").String f ≠ "") ∧
    (∀ err, (startDaemon goodCluster servingController recordProvisioner
      (contextOf " " " " " " " " " " " " " ")).2 ≠ .returned (some err)) :=
  ⟨⟨(), rfl, rfl, rfl⟩,
    (startDaemon_names_first_empty_value goodCluster servingController recordProvisioner
      (contextOf "metal-stack.io/csi-lvm" "" "metalstack/csi-lvm-provisioner" "/dev/sd[b-d]"
        "mirror" "" "Always") 7 ⟨"v1.17.0"⟩ ⟨(), rfl, rfl, rfl⟩).2.1
      [flagProvisionerName] [flagProvisionerImage, flagDevicePattern, flagDefaultLVMType,
        flagMountPoint, flagProvisionerPodPullPolicy] flagNamespace rfl (by decide) (by decide),
    by decide,
    ((startDaemon_names_first_empty_value goodCluster servingController recordProvisioner
      (contextOf " " " " " " " " " " " " " ") 7 ⟨"v1.17.0"⟩ ⟨(), rfl, rfl, rfl⟩).2.2.2
      (by decide)).1⟩

end claims
end Controller

namespace Provisioner

/-! ## The claims about the provisioner's `main` -/

/-- C6, as the claim states it, fails: when the arguments are not well formed
the library calls `onUsageError`, which panics, and `main` ends with the
non-zero code 2 although the run returned no error and the command verb was
not unrecognised. -/
theorem main_usage_error_exits_nonzero :
    (main "create" "delete" (.usageError "flag provided but not defined: -x" false)
      "2020/01/01 00:00:00 " "goroutine 1 [running]:").code = 2 ∧
    (main "create" "delete" (.usageError "flag provided but not defined: -x" false)
      "2020/01/01 00:00:00 " "goroutine 1 [running]:").code ≠ 0 ∧
    ¬ ((Dispatch.usageError "flag provided but not defined: -x" false).returnedError = true ∨
       (Dispatch.usageError "flag provided but not defined: -x" false).verbUnrecognised
         = true) := by
  decide

/-- C6, amended: the process exits with code 0 exactly when the run returns
without error; `main` exits non-zero if and only if the run returned an error,
the command verb was unrecognised, or the arguments were not well formed (the
handlers `cmdNotFound` and `onUsageError` both panic); and when the run
returned an error, the exit code is 1 and the line written to the process
output contains `Critical error: ` followed by that error. -/
theorem main_exit_code {Command : Type} (createLVCmd deleteLVCmd : Command) (d : Dispatch)
    (header trace err : String) :
    ((main createLVCmd deleteLVCmd d header trace).code = 0 ↔ d = .action none) ∧
    ((main createLVCmd deleteLVCmd d header trace).code ≠ 0 ↔
      (d.returnedError = true ∨ d.verbUnrecognised = true ∨ d.usageFailed = true)) ∧
    (main createLVCmd deleteLVCmd (.action (some err)) header trace).code = 1 ∧
    (∃ before after : String,
      (main createLVCmd deleteLVCmd (.action (some err)) header trace).stderr =
        before ++ ("Critical error: " ++ err) ++ after) := by
  refine ⟨?_, ?_, rfl, ⟨header, _, rfl⟩⟩
  · cases d with
    | action e =>
      cases e <;> simp [main, app, App.Run, logFatalf]
    | commandNotFound command => simp [main, app, App.Run, cmdNotFound, goPanic]
    | usageError e b => simp [main, app, App.Run, onUsageError, goPanic]
  · cases d with
    | action e =>
      cases e <;>
        simp [main, app, App.Run, logFatalf, Dispatch.returnedError,
          Dispatch.verbUnrecognised, Dispatch.usageFailed]
    | commandNotFound command =>
      simp [main, app, App.Run, cmdNotFound, goPanic, Dispatch.verbUnrecognised]
    | usageError e b =>
      simp [main, app, App.Run, onUsageError, goPanic, Dispatch.usageFailed]

/-- C7: the five flag-name constants of the provisioner binary are `lvname`,
`lvsize`, `vgname`, `pvs` and `directory`, pairwise distinct, and the app
registers exactly two commands, the create command followed by the delete
command. -/
theorem provisioner_invocation_surface {Command : Type} (createLVCmd deleteLVCmd : Command) :
    [flagLVName, flagLVSize, flagVGName, flagPVS, flagDirectory] =
      ["lvname", "lvsize", "vgname", "pvs", "directory"] ∧
    [flagLVName, flagLVSize, flagVGName, flagPVS, flagDirectory].Nodup ∧
    (app createLVCmd deleteLVCmd).Commands = [createLVCmd, deleteLVCmd] ∧
    (app createLVCmd deleteLVCmd).Commands.length = 2 :=
  ⟨rfl, by decide, rfl, rfl⟩

end Provisioner
